import Mathlib

/-!
Verification of the scedfinder backend (src/src/server.ts) against its
natural-language specification.  The two relational tables and the handler
logic of every endpoint the claims touch are shallowly embedded below:
tables are Lean lists kept in insertion order, SQL queries become list
filters/joins, and the knex query-builder behaviour relevant to the
handlers (mutation of the builder by `.limit`/`.offset` before `.clone`)
is modelled explicitly.
-/

/-- A row of the `sced_course_details` table (column order as in the
CREATE TABLE of POST /api/v1/setup, server.ts lines 402-411). -/
structure Course where
  course_code : String
  course_code_description : String
  course_description : String
  course_subject_area : String
  course_level : String
  cte_indicator : String
deriving Repr, DecidableEq

/-- A row of the `course_certification_mappings` table (server.ts lines
413-420).  The SERIAL surrogate `id` is never read by any handler and is
omitted; rows are kept in insertion order. -/
structure Mapping where
  course_code : String
  certification_area_code : String
  certification_area_description : String
deriving Repr, DecidableEq

/-- The database state: both tables, rows in insertion order. -/
structure DBState where
  courses : List Course
  mappings : List Mapping
deriving Repr, DecidableEq

/-- SQL LIKE matching over lists of characters, anchored at both ends as in
SQL: `%` matches any sequence, `_` matches exactly one character, any other
pattern character matches itself.  Structural recursion on the pattern; the
`%` case tries every suffix of the text. -/
def likeMatch : List Char → List Char → Bool
  | [], t => t.isEmpty
  | '%' :: ps, t => t.tails.any fun u => likeMatch ps u
  | '_' :: ps, t =>
    match t with
    | [] => false
    | _ :: ts => likeMatch ps ts
  | p :: ps, t =>
    match t with
    | [] => false
    | c :: ts => c == p && likeMatch ps ts

/-- Postgres `text ILIKE pattern`: case-insensitive LIKE (both sides
lower-cased character by character, ASCII case folding as in all data of
this repository). -/
def ilike (text pattern : String) : Bool :=
  likeMatch (pattern.data.map Char.toLower) (text.data.map Char.toLower)

/-- The ILIKE pattern built by the handlers from a search term:
`%${search}%` (server.ts lines 88-90, 127). -/
def containsPattern (search : String) : String :=
  "%" ++ search ++ "%"

/-- The course-search filter of GET /api/v1/sced/search (server.ts lines
87-91): applied only when `search` is truthy (non-empty); a course matches
when any of `course_code_description`, `course_description`, `course_code`
ILIKE-matches `%search%`. -/
def courseMatches (search : String) (c : Course) : Bool :=
  ilike c.course_code_description (containsPattern search)
  || ilike c.course_description (containsPattern search)
  || ilike c.course_code (containsPattern search)

/-- The rows of `sced_course_details` satisfying the WHERE clause of
GET /api/v1/sced/search: the whole table when the term is empty
(`if (search)` is falsy, server.ts line 87). -/
def filteredCourses (search : String) (courses : List Course) : List Course :=
  if search = "" then courses else courses.filter (courseMatches search)

/-- The total produced by `count('* as count').first()` on the cloned
builder.  In each search handler `query.limit(l).offset(o)` mutates the
builder before `query.clone()` is taken (server.ts lines 93-94, 130-131,
172-173), and `clearSelect()`/`clearOrder()` do not clear that window;
`.first()` re-sets LIMIT to 1 but the inherited OFFSET stays, so the count
query is `SELECT count(*) ... LIMIT 1 OFFSET o`.  SQL applies LIMIT/OFFSET
after aggregation, so the one aggregate row survives only when the offset
is 0; otherwise `.first()` yields no row and `Number(total?.count || 0)`
is 0. -/
def countWithWindow (fullCount offset : Nat) : Nat :=
  match (([fullCount].drop offset).take 1) with
  | [] => 0
  | n :: _ => n

/-- `Math.ceil(total IDIV limit)` on naturals (limit ≥ 1 in every claim). -/
def ceilDiv (total limit : Nat) : Nat :=
  (total + limit - 1) / limit

/-- The `pagination` object of the course-search and cte-courses
responses (server.ts lines 102-107, 181-186). -/
structure Pagination where
  page : Nat
  limit : Nat
  total : Nat
  totalPages : Nat
deriving Repr, DecidableEq

/-- Success payload of GET /api/v1/sced/search and of
GET /api/v1/certifications/name/:name/cte-courses.  The per-row `id` field
added by the handler duplicates `course_code` and is not modelled
separately. -/
structure PagedCourses where
  data : List Course
  pagination : Pagination
deriving Repr, DecidableEq

/-- GET /api/v1/sced/search (server.ts lines 80-115).  `data` is the
filtered table windowed by OFFSET `(page-1)*limit` and LIMIT `limit`;
`total` comes from the cloned builder that still carries that window
(see `countWithWindow`); `totalPages = Math.ceil(total/limit)` is computed
from the reported total. -/
def searchCourses (search : String) (page limit : Nat) (s : DBState) : PagedCourses :=
  let filtered := filteredCourses search s.courses
  let offset := (page - 1) * limit
  let total := countWithWindow filtered.length offset
  { data := (filtered.drop offset).take limit
    pagination :=
      { page := page, limit := limit, total := total
        totalPages := ceilDiv total limit } }

/-- One item of the certification-search response: the selected columns
`certification_area_code as code`, `certification_area_description as name`
plus the hardcoded placeholder `course_count: '0'` (server.ts lines
123, 135-138). -/
structure CertItem where
  code : String
  name : String
  course_count : String
deriving Repr, DecidableEq

/-- Success payload of GET /api/v1/certifications/search (server.ts lines
133-142): `data`, `total`, `page`, `limit` at top level; this endpoint
returns no `totalPages` field. -/
structure CertSearch where
  data : List CertItem
  total : Nat
  page : Nat
  limit : Nat
deriving Repr, DecidableEq

/-- The mapping rows satisfying the WHERE clause of
GET /api/v1/certifications/search: no filter when the term is empty or is
the literal `"*"` (server.ts line 126), else ILIKE `%search%` on
`certification_area_description`. -/
def certFilteredRows (search : String) (ms : List Mapping) : List Mapping :=
  if search = "" || search = "*" then ms
  else ms.filter fun m => ilike m.certification_area_description (containsPattern search)

/-- SELECT DISTINCT over already-computed rows: keep the first occurrence
of each value, preserving order of first appearance. -/
def dedupFirst {α : Type} [DecidableEq α] (seen : List α) : List α → List α
  | [] => []
  | a :: rest =>
    if a ∈ seen then dedupFirst seen rest
    else a :: dedupFirst (a :: seen) rest

/-- GET /api/v1/certifications/search (server.ts lines 117-149).  `data`
is the DISTINCT (code, name) projection windowed by OFFSET/LIMIT; `total`
comes from `query.clone().clearSelect()...count()`: `clearSelect()` clears
the select list and the DISTINCT flag but not the LIMIT/OFFSET the mutated
builder carries, so it is the count of all matching rows (not of distinct
pairs), windowed as in `countWithWindow`. -/
def searchCertifications (search : String) (page limit : Nat) (s : DBState) : CertSearch :=
  let rows := certFilteredRows search s.mappings
  let pairs := dedupFirst [] (rows.map fun m =>
    (m.certification_area_code, m.certification_area_description))
  let offset := (page - 1) * limit
  { data := ((pairs.drop offset).take limit).map fun p =>
      { code := p.1, name := p.2, course_count := "0" }
    total := countWithWindow rows.length offset
    page := page
    limit := limit }

/-- One hexadecimal digit of a percent-escape (0-9, A-F, a-f). -/
def hexDigitVal (c : Char) : Option Nat :=
  if c.isDigit then
    some (c.toNat - 48)
  else if 65 ≤ c.toNat ∧ c.toNat ≤ 70 then
    some (c.toNat - 55)
  else if 97 ≤ c.toNat ∧ c.toNat ≤ 102 then
    some (c.toNat - 87)
  else
    none

/-- JavaScript `decodeURIComponent` on the characters of the argument,
restricted to single-byte (ASCII) percent-escapes: `%XY` with `XY` a hex
byte below 0x80 decodes to that character, a malformed escape or a lone
high byte is a URIError (`none`; the handler's catch turns it into a 500).
Multi-byte UTF-8 escapes do not occur in any claim and are out of scope. -/
def percentDecode : List Char → Option (List Char)
  | '%' :: c1 :: c2 :: rest =>
    match hexDigitVal c1, hexDigitVal c2 with
    | some hi, some lo =>
      let b := 16 * hi + lo
      if b < 128 then (percentDecode rest).map fun ds => Char.ofNat b :: ds
      else none
    | _, _ => none
  | '%' :: _ => none
  | c :: rest => (percentDecode rest).map fun ds => c :: ds
  | [] => some []

/-- `decodeURIComponent` as applied to the `:name` path parameter
(server.ts line 169). -/
def decodeURIComponent (s : String) : Option String :=
  (percentDecode s.data).map fun cs => String.mk cs

/-- The joined, filtered rows of
GET /api/v1/certifications/name/:name/cte-courses (server.ts lines
159-170): `course_certification_mappings` inner-joined to
`sced_course_details` on `course_code`, WHERE
`certification_area_description` equals the decoded name exactly AND
`cte_indicator = 'Yes'`; the selected columns are the course columns. -/
def cteCourseRows (decodedName : String) (s : DBState) : List Course :=
  s.mappings.flatMap fun m =>
    if m.certification_area_description = decodedName then
      s.courses.filter fun c =>
        c.course_code == m.course_code && c.cte_indicator == "Yes"
    else []

/-- GET /api/v1/certifications/name/:name/cte-courses (server.ts lines
152-194).  `none` models the URIError path (caught, 500).  Pagination is
the same mutated-builder pattern as course search. -/
def cteCoursesByName (name : String) (page limit : Nat) (s : DBState) : Option PagedCourses :=
  (decodeURIComponent name).map fun decoded =>
    let rows := cteCourseRows decoded s
    let offset := (page - 1) * limit
    let total := countWithWindow rows.length offset
    { data := (rows.drop offset).take limit
      pagination :=
        { page := page, limit := limit, total := total
          totalPages := ceilDiv total limit } }

/-- Outcome of GET /api/v1/sced/courses/code/:code. -/
inductive CourseLookup where
  | notFound
  | found (course : Course) (certifications : List String)
deriving Repr, DecidableEq

/-- GET /api/v1/sced/courses/code/:code (server.ts lines 197-232): `.first()`
on the courses with the given code; 404 when there is none, otherwise the
course together with the `certification_area_description` of every mapping
row whose `course_code` equals the code.  The handler performs no write. -/
def getCourseByCode (code : String) (s : DBState) : CourseLookup :=
  match s.courses.find? (fun c => c.course_code == code) with
  | none => CourseLookup.notFound
  | some course =>
    CourseLookup.found course
      ((s.mappings.filter fun m => m.course_code == code).map
        fun m => m.certification_area_description)

/-- First seed course of POST /api/v1/setup (server.ts lines 439-446). -/
def seedBiology : Course :=
  { course_code := "03001"
    course_code_description := "Biology"
    course_description := "This course provides students with a comprehensive study of living organisms and life processes."
    course_subject_area := "Science"
    course_level := "High School"
    cte_indicator := "No" }

/-- Second seed course of POST /api/v1/setup (server.ts lines 447-454). -/
def seedAgriculture : Course :=
  { course_code := "20114"
    course_code_description := "Introduction to Agriculture"
    course_description := "This course introduces students to the world of agriculture and its career opportunities."
    course_subject_area := "Agriculture, Food & Natural Resources"
    course_level := "High School"
    cte_indicator := "Yes" }

/-- Third seed course of POST /api/v1/setup (server.ts lines 455-462). -/
def seedAutomotive : Course :=
  { course_code := "21101"
    course_code_description := "Automotive Technology I"
    course_description := "This course introduces students to automotive systems and basic repair procedures."
    course_subject_area := "Transportation, Distribution & Logistics"
    course_level := "High School"
    cte_indicator := "Yes" }

/-- The three seed courses inserted by POST /api/v1/setup when the course
table is empty (server.ts lines 438-463). -/
def seedCourses : List Course :=
  [seedBiology, seedAgriculture, seedAutomotive]

/-- The four seed mapping rows inserted by POST /api/v1/setup (server.ts
lines 465-470). -/
def seedMappings : List Mapping :=
  [ { course_code := "03001", certification_area_code := "5010"
      certification_area_description := "Biology (Grades 5-9)" }
  , { course_code := "03001", certification_area_code := "5020"
      certification_area_description := "Biology (Grades 7-12)" }
  , { course_code := "20114", certification_area_code := "8010"
      certification_area_description := "Agriculture (Grades 5-9)" }
  , { course_code := "21101", certification_area_code := "9010"
      certification_area_description := "Technology Education (Grades 5-9)" } ]

/-- The database state after a first successful POST /api/v1/setup on a
fresh database. -/
def seedState : DBState :=
  { courses := seedCourses, mappings := seedMappings }

/-- True when a mapping row with the given
(course_code, certification_area_code) pair exists: the `.where({...}).first()`
existence check of the import (server.ts lines 282-287), and the pair the
unique constraint added by setup ranges over. -/
def mappingExists (ms : List Mapping) (cc cac : String) : Bool :=
  ms.any fun m => m.course_code == cc && m.certification_area_code == cac

/-- POST /api/v1/setup (server.ts lines 399-483), returning the new state
and whether the handler answered success.  Table creation is delegated to
the database; the seed insert runs only when the course table is empty.
The batched seed-mapping insert executes under the
UNIQUE (course_code, certification_area_code) constraint the handler adds
just before it (lines 423-432): a batch containing a pair already present
throws, the handler's catch answers 500, and the mapping table is left
unchanged (the course insert, already awaited, is not rolled back — the
handler uses no transaction).  The seed course insert cannot violate its
primary key because it is gated on the course table being empty and the
seed codes are pairwise distinct. -/
def setup (s : DBState) : DBState × Bool :=
  if s.courses.length = 0 then
    let coursesSeeded := s.courses ++ seedCourses
    if seedMappings.any (fun m => mappingExists s.mappings m.course_code m.certification_area_code) then
      ({ courses := coursesSeeded, mappings := s.mappings }, false)
    else
      ({ courses := coursesSeeded, mappings := s.mappings ++ seedMappings }, true)
  else (s, true)

/-- A parsed CSV row as produced by csv-parser: an association of column
name to string value, one entry per header column. -/
abbrev Row := List (String × String)

/-- `row[key]` on a parsed row, with JavaScript string semantics flattened:
a missing key (undefined) and an empty value are both falsy, so both are
represented as `""`. -/
def getVal (row : Row) (key : String) : String :=
  match row.find? (fun kv => kv.1 == key) with
  | some kv => kv.2
  | none => ""

/-- JavaScript `a || b` on the strings of a row: `a` unless it is falsy
(empty / missing). -/
def orStr (a b : String) : String :=
  if a = "" then b else a

/-- JavaScript `key in row`: the parsed row has the column, whatever its
value (server.ts line 268 tests key presence, not truthiness). -/
def hasKey (row : Row) (key : String) : Bool :=
  row.any fun kv => kv.1 == key

/-- `row['Course Code (Course ID)'] || row['course_code']` (server.ts
lines 275, 307). -/
def rowCourseCode (row : Row) : String :=
  orStr (getVal row "Course Code (Course ID)") (getVal row "course_code")

/-- `row['Certification Area Code'] || row['certification_area_code']`
(server.ts line 276). -/
def rowCertAreaCode (row : Row) : String :=
  orStr (getVal row "Certification Area Code") (getVal row "certification_area_code")

/-- `row['Certification Area Description'] || row['certification_area_description']`
(server.ts line 277). -/
def rowCertAreaDesc (row : Row) : String :=
  orStr (getVal row "Certification Area Description") (getVal row "certification_area_description")

/-- `row['Course Code Description'] || row['course_code_description']`
(server.ts line 308). -/
def rowCourseDesc (row : Row) : String :=
  orStr (getVal row "Course Code Description") (getVal row "course_code_description")

/-- `row['Course Description'] || row['course_description']` (line 309). -/
def rowFullDesc (row : Row) : String :=
  orStr (getVal row "Course Description") (getVal row "course_description")

/-- `row['Course Subject Area'] || row['course_subject_area']` (line 310). -/
def rowSubjectArea (row : Row) : String :=
  orStr (getVal row "Course Subject Area") (getVal row "course_subject_area")

/-- `row['Course Level'] || row['course_level']` (line 311). -/
def rowCourseLevel (row : Row) : String :=
  orStr (getVal row "Course Level") (getVal row "course_level")

/-- `row['CTE Indicator'] || row['CTE_IND'] || row['cte_indicator']`
(line 312). -/
def rowCteIndicator (row : Row) : String :=
  orStr (getVal row "CTE Indicator") (orStr (getVal row "CTE_IND") (getVal row "cte_indicator"))

/-- `if (courseCode && certAreaCode && certAreaDesc)` (server.ts line 279):
a mapping-type row is processed only when all three required fields are
non-empty. -/
def mappingRowValid (row : Row) : Bool :=
  rowCourseCode row != "" && rowCertAreaCode row != "" && rowCertAreaDesc row != ""

/-- `if (courseCode && courseDesc)` (server.ts line 314): a course-type row
is processed only when both required fields are non-empty. -/
def courseRowValid (row : Row) : Bool :=
  rowCourseCode row != "" && rowCourseDesc row != ""

/-- True when a course row with the given code exists: the
`.where('course_code', courseCode).first()` existence check of the import
(server.ts lines 317-319). -/
def courseExists (cs : List Course) (cc : String) : Bool :=
  cs.any fun c => c.course_code == cc

/-- One iteration of the mapping-file loop of the import (server.ts lines
274-301), threading (database state, recordsProcessed): skip the row when
a required field is empty, otherwise insert-if-absent by
(course_code, certification_area_code) and count only an actual insert. -/
def mappingStep (acc : DBState × Nat) (row : Row) : DBState × Nat :=
  if mappingRowValid row then
    if mappingExists acc.1.mappings (rowCourseCode row) (rowCertAreaCode row) then acc
    else
      ({ acc.1 with mappings := acc.1.mappings ++
          [{ course_code := rowCourseCode row
             certification_area_code := rowCertAreaCode row
             certification_area_description := rowCertAreaDesc row }] },
        acc.2 + 1)
  else acc

/-- One iteration of the course-file loop of the import (server.ts lines
306-336): skip the row when a required field is empty, otherwise
insert-if-absent by course_code and count only an actual insert. -/
def courseStep (acc : DBState × Nat) (row : Row) : DBState × Nat :=
  if courseRowValid row then
    if courseExists acc.1.courses (rowCourseCode row) then acc
    else
      ({ acc.1 with courses := acc.1.courses ++
          [{ course_code := rowCourseCode row
             course_code_description := rowCourseDesc row
             course_description := rowFullDesc row
             course_subject_area := rowSubjectArea row
             course_level := rowCourseLevel row
             cte_indicator := rowCteIndicator row }] },
        acc.2 + 1)
  else acc

/-- File-type detection from the first parsed row only (server.ts lines
267-268): the file is certification-mapping data when the first row has a
'Certification Area Code' or 'certification_area_code' column. -/
def detectMappingFile : List Row → Bool
  | [] => false
  | first :: _ => hasKey first "Certification Area Code" || hasKey first "certification_area_code"

/-- The per-branch loop body of the import. -/
def importStep (isMapping : Bool) : (DBState × Nat) → Row → (DBState × Nat) :=
  if isMapping then mappingStep else courseStep

/-- The whole row loop of the import over all parsed rows, starting with
`recordsProcessed = 0` (server.ts lines 246, 274, 306). -/
def processRows (isMapping : Bool) (s : DBState) (rows : List Row) : DBState × Nat :=
  rows.foldl (importStep isMapping) (s, 0)

/-- Outcome of POST /api/v1/admin/upload-csv for one uploaded file. -/
structure UploadResult where
  success : Bool
  recordsProcessed : Nat
  state : DBState
  fileDeleted : Bool
  errorMsg : Option String
deriving Repr, DecidableEq

/-- POST /api/v1/admin/upload-csv (server.ts lines 235-361), from the
parsed row sequence of the accepted file.  An empty parse throws
'No data found in CSV file' before any row is written; the catch deletes
the uploaded temporary file and answers the error.  Otherwise the file
type is detected from the first row, every row is processed by the
matching loop, the temporary file is deleted, and the number of rows
actually inserted is reported. -/
def uploadCsv (results : List Row) (s : DBState) : UploadResult :=
  match results with
  | [] =>
    { success := false, recordsProcessed := 0, state := s
      fileDeleted := true, errorMsg := some "No data found in CSV file" }
  | _ :: _ =>
    let out := processRows (detectMappingFile results) s results
    { success := true, recordsProcessed := out.2, state := out.1
      fileDeleted := true, errorMsg := none }

/-- At most one mapping row per (course_code, certification_area_code)
pair (spec section 3, Invariants). -/
def MappingPairUnique (ms : List Mapping) : Prop :=
  List.Pairwise (fun a b =>
    ¬(a.course_code = b.course_code ∧ a.certification_area_code = b.certification_area_code)) ms

instance (ms : List Mapping) : Decidable (MappingPairUnique ms) :=
  List.instDecidablePairwise ms

/-- The fresh database: both tables empty. -/
def emptyState : DBState :=
  { courses := [], mappings := [] }

/-- Total number of rows across both tables; an insert of one row raises
it by exactly one. -/
def dbSize (s : DBState) : Nat :=
  s.courses.length + s.mappings.length

/-- The required-field check the import applies to a row under the file
type detected for the whole file. -/
def rowValidFor (isMapping : Bool) (r : Row) : Bool :=
  if isMapping then mappingRowValid r else courseRowValid r

/-- The row's identity already has a matching row in the state: the pair
(course_code, certification_area_code) for a mapping row, the course_code
for a course row — the import's insert-if-absent keys. -/
def rowHandled (isMapping : Bool) (s : DBState) (r : Row) : Bool :=
  if isMapping then mappingExists s.mappings (rowCourseCode r) (rowCertAreaCode r)
  else courseExists s.courses (rowCourseCode r)

/-- The row passes the required-field check and its key is not yet in the
state: processing it inserts a row. -/
def rowNewValid (isMapping : Bool) (s : DBState) (r : Row) : Bool :=
  rowValidFor isMapping r && !(rowHandled isMapping s r)

/-- A valid certification-mapping CSV row used as a concrete input. -/
def demoMappingRow : Row :=
  [("Course Code (Course ID)", "10001"), ("Certification Area Code", "1111"),
   ("Certification Area Description", "Demo Certification")]

/-- A mapping CSV row with an empty required `courseCode` field: it must be
skipped. -/
def demoInvalidMappingRow : Row :=
  [("Course Code (Course ID)", ""), ("Certification Area Code", "2222"),
   ("Certification Area Description", "Other Certification")]

/-- A valid course-details CSV row used as a concrete input. -/
def demoCourseRow : Row :=
  [("course_code", "55555"), ("course_code_description", "Demo course")]

/-- Claim C1 (code bug evidence): the pagination totals do not survive the
page window.  On the seed data, course search with the empty term and
page 2, limit 2 returns the third course as data, but reports total 0 and
totalPages 0, while the same filter has 3 matching rows (as page 1
reports): the count query of the handler is executed on a clone of the
builder already mutated by `.limit(2).offset(2)`, so
`SELECT count(*) ... LIMIT 2 OFFSET 2` returns no row and the handler
falls back to 0. -/
theorem search_total_vanishes_beyond_first_page :
    (searchCourses "" 2 2 seedState).data = [seedAutomotive]
    ∧ (searchCourses "" 2 2 seedState).pagination.total = 0
    ∧ (searchCourses "" 2 2 seedState).pagination.totalPages = 0
    ∧ (searchCourses "" 1 20 seedState).pagination.total = 3
    ∧ (filteredCourses "" seedState.courses).length = 3 := by
  decide

/-- Claim C4: if the uploaded CSV parses to an empty sequence of rows,
the import fails with the explicit 'No data found in CSV file' error, the
database state is unchanged; and on every outcome of the import the
uploaded temporary file is deleted. -/
theorem upload_csv_empty_error_and_cleanup :
    (∀ s : DBState,
      uploadCsv [] s =
        { success := false, recordsProcessed := 0, state := s
          fileDeleted := true, errorMsg := some "No data found in CSV file" })
    ∧ (∀ (results : List Row) (s : DBState), (uploadCsv results s).fileDeleted = true) := by
  constructor
  · intro s
    rfl
  · intro results s
    cases results <;> rfl

/-- Claim C7: the course-search filter predicate is applied only when the
search term is non-empty — the empty term returns the course table
unfiltered, so its data window is the plain window of the unfiltered
table; a non-empty term applies the three-column predicate. -/
theorem empty_search_returns_unfiltered :
    (∀ courses : List Course, filteredCourses "" courses = courses)
    ∧ (∀ (page limit : Nat) (s : DBState),
        (searchCourses "" page limit s).data =
          (s.courses.drop ((page - 1) * limit)).take limit)
    ∧ (∀ (t : String) (courses : List Course), t ≠ "" →
        filteredCourses t courses = courses.filter (courseMatches t)) := by
  refine ⟨fun courses => rfl, fun page limit s => rfl, fun t courses ht => ?_⟩
  simp [filteredCourses, ht]

/-- Claim C7 witness: the general statement applied at concrete inputs,
including the non-empty term 'Bio' whose hypothesis is discharged by
computation. -/
theorem empty_search_returns_unfiltered_witness :
    filteredCourses "" seedCourses = seedCourses
    ∧ (searchCourses "" 2 2 seedState).data = (seedState.courses.drop 2).take 2
    ∧ filteredCourses "Bio" seedCourses = seedCourses.filter (courseMatches "Bio") :=
  ⟨empty_search_returns_unfiltered.1 seedCourses,
   empty_search_returns_unfiltered.2.1 2 2 seedState,
   empty_search_returns_unfiltered.2.2 "Bio" seedCourses (by decide)⟩

/-- Claim C8: starting from the fresh (empty) database, invoking setup
twice leaves exactly 3 seed courses and 4 seed mappings; the second
invocation changes nothing because seed insertion is gated on the course
table being empty. -/
theorem setup_twice_seeds_once :
    (setup (setup emptyState).1).1.courses.length = 3
    ∧ (setup (setup emptyState).1).1.mappings.length = 4
    ∧ (setup (setup emptyState).1).1 = (setup emptyState).1 := by
  decide

/-- A mapping-loop iteration grows the database by exactly the amount it
adds to recordsProcessed (one row when it inserts, nothing otherwise). -/
theorem mappingStep_size (acc : DBState × Nat) (r : Row) :
    dbSize (mappingStep acc r).1 + acc.2 = dbSize acc.1 + (mappingStep acc r).2 := by
  unfold mappingStep
  split
  · split
    · rfl
    · simp [dbSize]
      omega
  · rfl

/-- A course-loop iteration grows the database by exactly the amount it
adds to recordsProcessed. -/
theorem courseStep_size (acc : DBState × Nat) (r : Row) :
    dbSize (courseStep acc r).1 + acc.2 = dbSize acc.1 + (courseStep acc r).2 := by
  unfold courseStep
  split
  · split
    · rfl
    · simp [dbSize]
      omega
  · rfl

/-- Over the whole row loop, the database grows by exactly the difference
of the counter. -/
theorem foldl_importStep_size (isMapping : Bool) (rows : List Row) :
    ∀ acc : DBState × Nat,
      dbSize (List.foldl (importStep isMapping) acc rows).1 + acc.2 =
        dbSize acc.1 + (List.foldl (importStep isMapping) acc rows).2 := by
  induction rows with
  | nil => intro acc; rfl
  | cons r rest ih =>
    intro acc
    have hstep : dbSize (importStep isMapping acc r).1 + acc.2 =
        dbSize acc.1 + (importStep isMapping acc r).2 := by
      cases isMapping
      · simpa [importStep] using courseStep_size acc r
      · simpa [importStep] using mappingStep_size acc r
    have hrest := ih (importStep isMapping acc r)
    simp only [List.foldl_cons]
    omega

/-- Claim C2: in CSV import, a mapping-type row is processed only when
courseCode, certificationAreaCode and certificationAreaDescription are all
non-empty and a course-type row only when courseCode and codeDescription
are non-empty; a row failing the check leaves state and counter untouched
and the loop continues with the remaining rows; and recordsProcessed
equals exactly the number of rows actually inserted (the growth of the
database), not rows read or skipped. -/
theorem upload_csv_skips_invalid_rows_counts_inserts :
    (∀ (results : List Row) (s : DBState),
        dbSize (uploadCsv results s).state =
          dbSize s + (uploadCsv results s).recordsProcessed)
    ∧ (∀ r : Row, mappingRowValid r =
        (rowCourseCode r != "" && rowCertAreaCode r != "" && rowCertAreaDesc r != ""))
    ∧ (∀ r : Row, courseRowValid r = (rowCourseCode r != "" && rowCourseDesc r != ""))
    ∧ (∀ (acc : DBState × Nat) (r : Row),
        mappingRowValid r = false → mappingStep acc r = acc)
    ∧ (∀ (acc : DBState × Nat) (r : Row),
        courseRowValid r = false → courseStep acc r = acc)
    ∧ (∀ (isMapping : Bool) (acc : DBState × Nat) (r : Row) (rest : List Row),
        rowValidFor isMapping r = false →
        List.foldl (importStep isMapping) acc (r :: rest) =
          List.foldl (importStep isMapping) acc rest) := by
  have hmskip : ∀ (acc : DBState × Nat) (r : Row),
      mappingRowValid r = false → mappingStep acc r = acc := by
    intro acc r hr
    unfold mappingStep
    simp [hr]
  have hcskip : ∀ (acc : DBState × Nat) (r : Row),
      courseRowValid r = false → courseStep acc r = acc := by
    intro acc r hr
    unfold courseStep
    simp [hr]
  refine ⟨?_, fun r => rfl, fun r => rfl, hmskip, hcskip, ?_⟩
  · intro results s
    cases results with
    | nil => rfl
    | cons r rest =>
      have h := foldl_importStep_size (detectMappingFile (r :: rest)) (r :: rest) (s, 0)
      simpa [uploadCsv, processRows] using h
  · intro isMapping acc r rest hr
    have hstep : importStep isMapping acc r = acc := by
      cases isMapping
      · exact hcskip acc r (by simpa [rowValidFor] using hr)
      · exact hmskip acc r (by simpa [rowValidFor] using hr)
    simp [List.foldl_cons, hstep]

/-- Claim C2 witness: the accounting identity, the skip of a row with an
empty required courseCode, and the continuation of the loop past it, all
at concrete inputs. -/
theorem upload_csv_skips_invalid_rows_counts_inserts_witness :
    dbSize (uploadCsv [demoMappingRow, demoInvalidMappingRow] emptyState).state =
      dbSize emptyState +
        (uploadCsv [demoMappingRow, demoInvalidMappingRow] emptyState).recordsProcessed
    ∧ mappingStep (emptyState, 0) demoInvalidMappingRow = (emptyState, 0)
    ∧ List.foldl (importStep true) (emptyState, 0) [demoInvalidMappingRow, demoMappingRow] =
        List.foldl (importStep true) (emptyState, 0) [demoMappingRow] :=
  ⟨upload_csv_skips_invalid_rows_counts_inserts.1 [demoMappingRow, demoInvalidMappingRow] emptyState,
   upload_csv_skips_invalid_rows_counts_inserts.2.2.2.1 (emptyState, 0) demoInvalidMappingRow (by decide),
   upload_csv_skips_invalid_rows_counts_inserts.2.2.2.2.2 true (emptyState, 0)
     demoInvalidMappingRow [demoMappingRow] (by decide)⟩

/-- Unfolding of a failed mapping-existence check: no row of the table
carries the pair. -/
theorem mappingExists_false_iff (ms : List Mapping) (cc cac : String) :
    mappingExists ms cc cac = false ↔
      ∀ m ∈ ms, m.course_code = cc → m.certification_area_code ≠ cac := by
  simp [mappingExists]

/-- A mapping-loop iteration keeps the pair-uniqueness invariant: it
inserts only after its existence check found no row with the pair. -/
theorem mappingStep_preserves_unique (acc : DBState × Nat) (r : Row)
    (h : MappingPairUnique acc.1.mappings) :
    MappingPairUnique (mappingStep acc r).1.mappings := by
  unfold mappingStep
  split
  · split
    case isTrue => exact h
    case isFalse hex =>
      have hex2 : mappingExists acc.1.mappings (rowCourseCode r) (rowCertAreaCode r) = false := by
        simpa using hex
      unfold MappingPairUnique at h ⊢
      rw [List.pairwise_append]
      refine ⟨h, List.pairwise_singleton _ _, ?_⟩
      intro a ha b hb
      simp only [List.mem_singleton] at hb
      subst hb
      rintro ⟨h1, h2⟩
      exact (mappingExists_false_iff _ _ _).mp hex2 a ha h1 h2
  · exact h

/-- A course-loop iteration never touches the mapping table. -/
theorem courseStep_mappings (acc : DBState × Nat) (r : Row) :
    (courseStep acc r).1.mappings = acc.1.mappings := by
  unfold courseStep
  split
  · split <;> rfl
  · rfl

/-- The whole import loop keeps the pair-uniqueness invariant. -/
theorem foldl_importStep_preserves_unique (isMapping : Bool) (rows : List Row) :
    ∀ acc : DBState × Nat, MappingPairUnique acc.1.mappings →
      MappingPairUnique (List.foldl (importStep isMapping) acc rows).1.mappings := by
  induction rows with
  | nil => intro acc h; exact h
  | cons r rest ih =>
    intro acc h
    have hstep : MappingPairUnique (importStep isMapping acc r).1.mappings := by
      cases isMapping
      · simpa [importStep, courseStep_mappings] using h
      · simpa [importStep] using mappingStep_preserves_unique acc r h
    simpa [List.foldl_cons] using ih (importStep isMapping acc r) hstep

/-- Claim C9: at most one certification-mapping row per
(courseCode, certificationAreaCode) pair is an invariant of every
application-level write — the seed mapping rows have pairwise-distinct
pairs, the CSV import inserts a mapping only after checking that no row
with the pair exists, and setup seeding preserves the invariant. -/
theorem mapping_pair_uniqueness_preserved :
    MappingPairUnique seedMappings
    ∧ (∀ (results : List Row) (s : DBState), MappingPairUnique s.mappings →
        MappingPairUnique (uploadCsv results s).state.mappings)
    ∧ (∀ s : DBState, MappingPairUnique s.mappings →
        MappingPairUnique (setup s).1.mappings) := by
  refine ⟨by decide, ?_, ?_⟩
  · intro results s h
    cases results with
    | nil => exact h
    | cons r rest =>
      simpa [uploadCsv, processRows] using
        foldl_importStep_preserves_unique (detectMappingFile (r :: rest)) (r :: rest) (s, 0) h
  · intro s h
    unfold setup
    split
    · split
      case isTrue => exact h
      case isFalse hc =>
        have hc2 : ∀ b ∈ seedMappings,
            mappingExists s.mappings b.course_code b.certification_area_code = false := by
          simpa [List.any_eq_false] using hc
        unfold MappingPairUnique at h ⊢
        rw [List.pairwise_append]
        refine ⟨h, by decide, ?_⟩
        intro a ha b hb
        rintro ⟨h1, h2⟩
        exact (mappingExists_false_iff _ _ _).mp (hc2 b hb) a ha h1 h2
    · exact h

/-- Claim C9 witness: the invariant holds of the seed mappings, and is
preserved by a concrete import into the seeded state and by setup on the
seeded state, with the invariant hypotheses discharged by computation. -/
theorem mapping_pair_uniqueness_preserved_witness :
    MappingPairUnique (uploadCsv [demoMappingRow] seedState).state.mappings
    ∧ MappingPairUnique (setup seedState).1.mappings :=
  ⟨mapping_pair_uniqueness_preserved.2.1 [demoMappingRow] seedState (by decide),
   mapping_pair_uniqueness_preserved.2.2 seedState (by decide)⟩

/-- A loop iteration either leaves the accumulator untouched or performs
exactly one insert, incrementing the counter by one. -/
theorem importStep_eq_or_insert (isMapping : Bool) (acc : DBState × Nat) (r : Row) :
    importStep isMapping acc r = acc ∨ (importStep isMapping acc r).2 = acc.2 + 1 := by
  cases isMapping
  · show courseStep acc r = acc ∨ (courseStep acc r).2 = acc.2 + 1
    unfold courseStep
    split
    · split
      · exact Or.inl rfl
      · exact Or.inr rfl
    · exact Or.inl rfl
  · show mappingStep acc r = acc ∨ (mappingStep acc r).2 = acc.2 + 1
    unfold mappingStep
    split
    · split
      · exact Or.inl rfl
      · exact Or.inr rfl
    · exact Or.inl rfl

/-- A loop iteration only ever appends rows to the two tables. -/
theorem importStep_appends (isMapping : Bool) (acc : DBState × Nat) (r : Row) :
    ∃ lc lm, (importStep isMapping acc r).1.courses = acc.1.courses ++ lc ∧
      (importStep isMapping acc r).1.mappings = acc.1.mappings ++ lm := by
  cases isMapping
  · show ∃ lc lm, (courseStep acc r).1.courses = acc.1.courses ++ lc ∧
      (courseStep acc r).1.mappings = acc.1.mappings ++ lm
    unfold courseStep
    split
    · split
      · exact ⟨[], [], by simp, by simp⟩
      · exact ⟨_, [], rfl, by simp⟩
    · exact ⟨[], [], by simp, by simp⟩
  · show ∃ lc lm, (mappingStep acc r).1.courses = acc.1.courses ++ lc ∧
      (mappingStep acc r).1.mappings = acc.1.mappings ++ lm
    unfold mappingStep
    split
    · split
      · exact ⟨[], [], by simp, by simp⟩
      · exact ⟨[], _, by simp, rfl⟩
    · exact ⟨[], [], by simp, by simp⟩

/-- An existing course code still exists after appending rows. -/
theorem courseExists_append (cs l : List Course) (cc : String)
    (h : courseExists cs cc = true) : courseExists (cs ++ l) cc = true := by
  unfold courseExists at h ⊢
  rw [List.any_append, h]
  rfl

/-- An existing mapping pair still exists after appending rows. -/
theorem mappingExists_append (ms l : List Mapping) (cc cac : String)
    (h : mappingExists ms cc cac = true) : mappingExists (ms ++ l) cc cac = true := by
  unfold mappingExists at h ⊢
  rw [List.any_append, h]
  rfl

/-- A row whose key is in the state keeps it through any iteration. -/
theorem rowHandled_mono_step (isMapping : Bool) (acc : DBState × Nat) (r other : Row)
    (h : rowHandled isMapping acc.1 r = true) :
    rowHandled isMapping (importStep isMapping acc other).1 r = true := by
  obtain ⟨lc, lm, hc, hm⟩ := importStep_appends isMapping acc other
  cases isMapping
  · simp only [rowHandled, Bool.false_eq_true, if_false] at h ⊢
    rw [hc]
    exact courseExists_append _ _ _ h
  · simp only [rowHandled, if_true] at h ⊢
    rw [hm]
    exact mappingExists_append _ _ _ _ h

/-- After its own iteration, a row that passed the required-field check has
its key in the state (it was either already present or just inserted). -/
theorem importStep_handles (isMapping : Bool) (acc : DBState × Nat) (r : Row)
    (hv : rowValidFor isMapping r = true) :
    rowHandled isMapping (importStep isMapping acc r).1 r = true := by
  cases isMapping
  · have hv2 : courseRowValid r = true := hv
    simp only [rowHandled, Bool.false_eq_true, if_false]
    show courseExists (courseStep acc r).1.courses (rowCourseCode r) = true
    unfold courseStep
    rw [if_pos hv2]
    by_cases hex : courseExists acc.1.courses (rowCourseCode r) = true
    · rw [if_pos hex]
      exact hex
    · rw [if_neg hex]
      simp [courseExists, List.any_append]
  · have hv2 : mappingRowValid r = true := hv
    simp only [rowHandled, if_true]
    show mappingExists (mappingStep acc r).1.mappings (rowCourseCode r) (rowCertAreaCode r) = true
    unfold mappingStep
    rw [if_pos hv2]
    by_cases hex : mappingExists acc.1.mappings (rowCourseCode r) (rowCertAreaCode r) = true
    · rw [if_pos hex]
      exact hex
    · rw [if_neg hex]
      simp [mappingExists, List.any_append]

/-- An iteration that turns a row's key from absent to present is exactly
an insert, so it increments the counter. -/
theorem importStep_count_of_handled_change (isMapping : Bool) (acc : DBState × Nat)
    (r other : Row) (h0 : rowHandled isMapping acc.1 r = false)
    (h1 : rowHandled isMapping (importStep isMapping acc other).1 r = true) :
    (importStep isMapping acc other).2 = acc.2 + 1 := by
  rcases importStep_eq_or_insert isMapping acc other with heq | hins
  · rw [heq, h0] at h1
    cases h1
  · exact hins

/-- The counter never decreases along the loop. -/
theorem foldl_importStep_count_mono (isMapping : Bool) (rows : List Row) :
    ∀ acc : DBState × Nat, acc.2 ≤ (List.foldl (importStep isMapping) acc rows).2 := by
  induction rows with
  | nil => intro acc; exact Nat.le_refl _
  | cons r rest ih =>
    intro acc
    have hstep : acc.2 ≤ (importStep isMapping acc r).2 := by
      rcases importStep_eq_or_insert isMapping acc r with heq | hins
      · rw [heq]
      · rw [hins]
        omega
    rw [List.foldl_cons]
    exact Nat.le_trans hstep (ih _)

/-- Handledness of a row is preserved by the whole loop. -/
theorem foldl_rowHandled_mono (isMapping : Bool) (rows : List Row) :
    ∀ (acc : DBState × Nat) (r : Row), rowHandled isMapping acc.1 r = true →
      rowHandled isMapping (List.foldl (importStep isMapping) acc rows).1 r = true := by
  induction rows with
  | nil => intro acc r h; exact h
  | cons r0 rest ih =>
    intro acc r h
    rw [List.foldl_cons]
    exact ih _ r (rowHandled_mono_step isMapping acc r r0 h)

/-- After the loop, every row of the file that passed the required-field
check has its key present in the final state. -/
theorem foldl_handles_all (isMapping : Bool) (rows : List Row) :
    ∀ (acc : DBState × Nat) (r : Row), r ∈ rows → rowValidFor isMapping r = true →
      rowHandled isMapping (List.foldl (importStep isMapping) acc rows).1 r = true := by
  induction rows with
  | nil => intro _ _ h; cases h
  | cons r0 rest ih =>
    intro acc r hmem hv
    rw [List.foldl_cons]
    rcases List.mem_cons.mp hmem with heq | hmem2
    · subst heq
      exact foldl_rowHandled_mono isMapping rest _ r (importStep_handles isMapping acc r hv)
    · exact ih _ r hmem2 hv

/-- A row that fails the required-field check is a no-op iteration. -/
theorem importStep_of_invalid (isMapping : Bool) (acc : DBState × Nat) (r : Row)
    (hv : rowValidFor isMapping r = false) : importStep isMapping acc r = acc := by
  cases isMapping
  · have hv2 : courseRowValid r = false := hv
    show courseStep acc r = acc
    unfold courseStep
    rw [hv2]
    rfl
  · have hv2 : mappingRowValid r = false := hv
    show mappingStep acc r = acc
    unfold mappingStep
    rw [hv2]
    rfl

/-- A row whose key is already present is a no-op iteration (whether or not
it passes the required-field check). -/
theorem importStep_of_handled (isMapping : Bool) (acc : DBState × Nat) (r : Row)
    (hh : rowHandled isMapping acc.1 r = true) : importStep isMapping acc r = acc := by
  cases isMapping
  · have hh2 : courseExists acc.1.courses (rowCourseCode r) = true := by
      simpa only [rowHandled, Bool.false_eq_true, if_false] using hh
    show courseStep acc r = acc
    unfold courseStep
    rw [hh2]
    split <;> rfl
  · have hh2 : mappingExists acc.1.mappings (rowCourseCode r) (rowCertAreaCode r) = true := by
      simpa only [rowHandled, if_true] using hh
    show mappingStep acc r = acc
    unfold mappingStep
    rw [hh2]
    split <;> rfl

/-- If every valid row of the file already has its key in the state, the
whole loop changes nothing and counts nothing. -/
theorem foldl_noop_of_all_handled (isMapping : Bool) (rows : List Row) :
    ∀ acc : DBState × Nat,
      (∀ r ∈ rows, rowValidFor isMapping r = true → rowHandled isMapping acc.1 r = true) →
      List.foldl (importStep isMapping) acc rows = acc := by
  induction rows with
  | nil => intro acc _; rfl
  | cons r0 rest ih =>
    intro acc hall
    have hstep : importStep isMapping acc r0 = acc := by
      by_cases hv : rowValidFor isMapping r0 = true
      · exact importStep_of_handled isMapping acc r0 (hall r0 (List.mem_cons_self r0 rest) hv)
      · exact importStep_of_invalid isMapping acc r0 (by simpa using hv)
    rw [List.foldl_cons, hstep]
    exact ih acc fun r hr => hall r (List.mem_cons_of_mem r0 hr)

/-- A file containing a row that is valid and whose key is absent from the
starting state makes the loop count at least one insert. -/
theorem foldl_count_pos (isMapping : Bool) (rows : List Row) :
    ∀ (acc : DBState × Nat) (r : Row), r ∈ rows →
      rowNewValid isMapping acc.1 r = true →
      acc.2 < (List.foldl (importStep isMapping) acc rows).2 := by
  induction rows with
  | nil => intro _ _ h; cases h
  | cons r0 rest ih =>
    intro acc r hmem hnv
    have hv : rowValidFor isMapping r = true := by
      have h := hnv
      unfold rowNewValid at h
      exact (Bool.and_eq_true _ _ |>.mp h).1
    have hnh : rowHandled isMapping acc.1 r = false := by
      have h := hnv
      unfold rowNewValid at h
      have h2 := (Bool.and_eq_true _ _ |>.mp h).2
      simpa using h2
    rw [List.foldl_cons]
    rcases List.mem_cons.mp hmem with heq | hmem2
    · subst heq
      have h1 := importStep_handles isMapping acc r hv
      have h2 := importStep_count_of_handled_change isMapping acc r r hnh h1
      have h3 := foldl_importStep_count_mono isMapping rest (importStep isMapping acc r)
      omega
    · by_cases hh : rowHandled isMapping (importStep isMapping acc r0).1 r = true
      · have h2 := importStep_count_of_handled_change isMapping acc r r0 hnh hh
        have h3 := foldl_importStep_count_mono isMapping rest (importStep isMapping acc r0)
        omega
      · have hh2 : rowHandled isMapping (importStep isMapping acc r0).1 r = false := by
          simpa using hh
        have hnv2 : rowNewValid isMapping (importStep isMapping acc r0).1 r = true := by
          unfold rowNewValid
          rw [hv, hh2]
          rfl
        have hle : acc.2 ≤ (importStep isMapping acc r0).2 := by
          rcases importStep_eq_or_insert isMapping acc r0 with heq | hins
          · rw [heq]
          · rw [hins]
            omega
        exact Nat.lt_of_le_of_lt hle (ih _ r hmem2 hnv2)

/-- Claim C3: CSV import is idempotent — a file containing at least one
valid row whose key is new to the state inserts rows and reports a
positive count on the first run, and the identical file run again against
the resulting state inserts nothing, reports 0, and leaves the state
unchanged (insert-if-absent by course code, respectively by the
(courseCode, certificationAreaCode) pair). -/
theorem upload_csv_idempotent (results : List Row) (s : DBState)
    (h : ∃ r ∈ results, rowNewValid (detectMappingFile results) s r = true) :
    0 < (uploadCsv results s).recordsProcessed
    ∧ (uploadCsv results (uploadCsv results s).state).recordsProcessed = 0
    ∧ (uploadCsv results (uploadCsv results s).state).state = (uploadCsv results s).state := by
  obtain ⟨r, hmem, hnv⟩ := h
  cases results with
  | nil => cases hmem
  | cons r0 rest =>
    have h1 : 0 < (List.foldl (importStep (detectMappingFile (r0 :: rest))) (s, 0) (r0 :: rest)).2 :=
      foldl_count_pos (detectMappingFile (r0 :: rest)) (r0 :: rest) (s, 0) r hmem hnv
    have hall : ∀ r2 ∈ r0 :: rest, rowValidFor (detectMappingFile (r0 :: rest)) r2 = true →
        rowHandled (detectMappingFile (r0 :: rest))
          (List.foldl (importStep (detectMappingFile (r0 :: rest))) (s, 0) (r0 :: rest)).1 r2 = true :=
      fun r2 hm2 hv2 =>
        foldl_handles_all (detectMappingFile (r0 :: rest)) (r0 :: rest) (s, 0) r2 hm2 hv2
    have hnoop := foldl_noop_of_all_handled (detectMappingFile (r0 :: rest)) (r0 :: rest)
      ((List.foldl (importStep (detectMappingFile (r0 :: rest))) (s, 0) (r0 :: rest)).1, 0)
      (fun r2 hm2 hv2 => hall r2 hm2 hv2)
    refine ⟨by simpa [uploadCsv, processRows] using h1, ?_, ?_⟩
    · simp only [uploadCsv, processRows]
      rw [hnoop]
    · simp only [uploadCsv, processRows]
      rw [hnoop]

/-- Claim C3 witness: importing a one-row mapping file into the empty
database inserts and counts one row, and importing it again inserts and
counts nothing, the existential hypothesis discharged at the concrete
row. -/
theorem upload_csv_idempotent_witness :
    0 < (uploadCsv [demoMappingRow] emptyState).recordsProcessed
    ∧ (uploadCsv [demoMappingRow] (uploadCsv [demoMappingRow] emptyState).state).recordsProcessed = 0
    ∧ (uploadCsv [demoMappingRow] (uploadCsv [demoMappingRow] emptyState).state).state =
        (uploadCsv [demoMappingRow] emptyState).state :=
  upload_csv_idempotent [demoMappingRow] emptyState ⟨demoMappingRow, by decide, by decide⟩

/-- Claim C6: get-course-by-code answers Not Found exactly when no course
row has the given code; a found answer is a course of the table with that
code, carrying the certificationAreaDescription of every mapping of that
code; and on the seed data code 03001 is the Biology course with its two
Biology certifications while an absent code answers Not Found.  The
handler performs reads only, so the state is untouched by construction. -/
theorem get_course_by_code_correct :
    (∀ (code : String) (s : DBState),
        getCourseByCode code s = CourseLookup.notFound ↔
          ∀ c ∈ s.courses, c.course_code ≠ code)
    ∧ (∀ (code : String) (s : DBState) (c : Course) (certs : List String),
        getCourseByCode code s = CourseLookup.found c certs →
          c ∈ s.courses ∧ c.course_code = code ∧
            certs = (s.mappings.filter fun m => m.course_code == code).map
              fun m => m.certification_area_description)
    ∧ getCourseByCode "03001" seedState =
        CourseLookup.found seedBiology ["Biology (Grades 5-9)", "Biology (Grades 7-12)"]
    ∧ getCourseByCode "99999" seedState = CourseLookup.notFound := by
  refine ⟨?_, ?_, by decide, by decide⟩
  · intro code s
    constructor
    · intro h c hc hcode
      unfold getCourseByCode at h
      split at h
      case h_1 heq =>
        have hnone := List.find?_eq_none.mp heq c hc
        simp only [beq_iff_eq] at hnone
        exact hnone hcode
      case h_2 c0 heq => exact CourseLookup.noConfusion h
    · intro hall
      unfold getCourseByCode
      split
      case h_1 heq => rfl
      case h_2 c0 heq =>
        have hc0 := List.mem_of_find?_eq_some heq
        have hp := List.find?_some heq
        exact absurd (by simpa using hp) (hall c0 hc0)
  · intro code s c certs h
    unfold getCourseByCode at h
    split at h
    case h_1 heq => exact CourseLookup.noConfusion h
    case h_2 c0 heq =>
      injection h with h1 h2
      subst h1
      refine ⟨List.mem_of_find?_eq_some heq, ?_, h2.symm⟩
      have hp := List.find?_some heq
      simpa using hp

/-- Claim C6 witness: the found-answer characterization applied at the
concrete seed lookup of code 03001, its hypothesis discharged by
computation. -/
theorem get_course_by_code_correct_witness :
    seedBiology ∈ seedState.courses ∧ seedBiology.course_code = "03001" ∧
      ["Biology (Grades 5-9)", "Biology (Grades 7-12)"] =
        (seedState.mappings.filter fun m => m.course_code == "03001").map
          fun m => m.certification_area_description :=
  get_course_by_code_correct.2.1 "03001" seedState seedBiology
    ["Biology (Grades 5-9)", "Biology (Grades 7-12)"] (by decide)

/-- Claim C5: the CTE-courses row set contains exactly the courses having
a mapping whose certificationAreaDescription equals the decoded name by
exact string equality and whose cteIndicator is 'Yes'; on the seed data
the name 'Agriculture (Grades 5-9)' returns exactly the course with code
20114, a name with no matching courses returns an empty list with total 0,
and neither the substring 'Agriculture' nor a lower-cased variant of the
full name matches anything (exact match, not substring, not
case-insensitive). -/
theorem cte_courses_by_name_exact_match :
    (∀ (decoded : String) (s : DBState) (c : Course),
        c ∈ cteCourseRows decoded s ↔
          c ∈ s.courses ∧ c.cte_indicator = "Yes" ∧
            ∃ m ∈ s.mappings, m.certification_area_description = decoded ∧
              m.course_code = c.course_code)
    ∧ cteCoursesByName "Agriculture (Grades 5-9)" 1 20 seedState =
        some { data := [seedAgriculture]
               pagination := { page := 1, limit := 20, total := 1, totalPages := 1 } }
    ∧ seedAgriculture.course_code = "20114"
    ∧ cteCoursesByName "Chemistry (Grades 5-9)" 1 20 seedState =
        some { data := [], pagination := { page := 1, limit := 20, total := 0, totalPages := 0 } }
    ∧ cteCourseRows "Agriculture" seedState = []
    ∧ cteCourseRows "agriculture (grades 5-9)" seedState = [] := by
  refine ⟨?_, by decide, by decide, by decide, by decide, by decide⟩
  intro decoded s c
  unfold cteCourseRows
  rw [List.mem_flatMap]
  constructor
  · rintro ⟨m, hm, hc⟩
    by_cases hd : m.certification_area_description = decoded
    · rw [if_pos hd, List.mem_filter] at hc
      obtain ⟨hcs, hb⟩ := hc
      simp only [Bool.and_eq_true, beq_iff_eq] at hb
      exact ⟨hcs, hb.2, m, hm, hd, hb.1.symm⟩
    · rw [if_neg hd] at hc
      cases hc
  · rintro ⟨hcs, hyes, m, hm, hd, hcode⟩
    refine ⟨m, hm, ?_⟩
    rw [if_pos hd, List.mem_filter]
    refine ⟨hcs, ?_⟩
    simp only [Bool.and_eq_true, beq_iff_eq]
    exact ⟨hcode.symm, hyes⟩

set_option maxRecDepth 20000 in
/-- Claim C10: the search term is spliced into the ILIKE pattern
`%term%`, so `%` and `_` in a term act as SQL wildcards, not literals.  On
the seed data the non-empty term '%' makes course search return the full
unfiltered course set and certification search all four mapping rows,
although '%' occurs in no row of either table as a literal substring; the
term 'B_ology' matches the Biology course although it occurs literally in
no field of any seed course even up to case. -/
theorem ilike_wildcards_act_as_wildcards :
    (searchCourses "%" 1 20 seedState).data = seedCourses
    ∧ (searchCourses "%" 1 20 seedState).pagination.total = 3
    ∧ (∀ c ∈ seedCourses,
        ¬("%".data <:+: c.course_code_description.data)
        ∧ ¬("%".data <:+: c.course_description.data)
        ∧ ¬("%".data <:+: c.course_code.data))
    ∧ (searchCertifications "%" 1 20 seedState).data =
        [ { code := "5010", name := "Biology (Grades 5-9)", course_count := "0" }
        , { code := "5020", name := "Biology (Grades 7-12)", course_count := "0" }
        , { code := "8010", name := "Agriculture (Grades 5-9)", course_count := "0" }
        , { code := "9010", name := "Technology Education (Grades 5-9)", course_count := "0" } ]
    ∧ (searchCertifications "%" 1 20 seedState).total = 4
    ∧ (∀ m ∈ seedMappings, ¬("%".data <:+: m.certification_area_description.data))
    ∧ (searchCourses "B_ology" 1 20 seedState).data = [seedBiology]
    ∧ (∀ c ∈ seedCourses,
        ¬("b_ology".data <:+: (c.course_code_description.data.map Char.toLower))
        ∧ ¬("b_ology".data <:+: (c.course_description.data.map Char.toLower))
        ∧ ¬("b_ology".data <:+: (c.course_code.data.map Char.toLower)))
    ∧ ("%" : String) ≠ "" ∧ ("B_ology" : String) ≠ "" := by
  decide
